import Mathlib

/-!
Verification of the local-mcp OAuth core.

Shallow embedding of `src/local_mcp/auth.py` (the in-memory `HtpasswdAuth`
provider) and `src/local_mcp/token_db.py` (the JSON-persisted `TokenDB`).

Modelling conventions:
* Python dicts become association lists `Store α = List (String × α)`;
  `dict.get`/`dict.pop`/assignment become `Store.lookup`/`Store.erase`/
  `Store.set`.
* `time.time()` and the random strings from `secrets.token_urlsafe` are
  nondeterministic inputs, so each operation takes the current time `now`
  and any freshly generated strings as explicit parameters.  Timestamps are
  `Int` (the code only adds constants to them and compares with `>`, which
  is order-isomorphic to the float arithmetic actually performed).
* `self._verify_user(u, p)` consults the external htpasswd file; its Boolean
  result is passed in as a parameter.
* Methods that mutate `self` return the new state alongside their result;
  `raise ValueError(...)` becomes `Except.error` with the message.
-/

/-- A Python `dict[str, α]` as an association list. -/
abbrev Store (α : Type) := List (String × α)

namespace Store

/-- `d.get(k)` / `d[k]` lookup. -/
def lookup {α : Type} (s : Store α) (k : String) : Option α :=
  List.lookup k s

/-- Key removal, as performed by `d.pop(k, None)` when `k` is present. -/
def erase {α : Type} (s : Store α) (k : String) : Store α :=
  s.filter (fun p => p.1 != k)

/-- `d[k] = v`: the store afterwards maps `k` to `v` and is unchanged elsewhere. -/
def set {α : Type} (s : Store α) (k : String) (v : α) : Store α :=
  (k, v) :: s.erase k

end Store

/-! ### Record types of `auth.py` -/

/-- `auth.py` dataclass `StoredToken`. -/
structure StoredToken where
  token : String
  user : String
  scopes : List String
  expires_at : Int
  client_id : String
deriving Repr, DecidableEq

/-- `auth.py` dataclass `StoredAuthCode`. -/
structure StoredAuthCode where
  code : String
  client_id : String
  redirect_uri : String
  scopes : List String
  code_challenge : Option String
  expires_at : Int
  user : String
deriving Repr, DecidableEq

/-- `auth.py` dataclass `PendingAuth`. -/
structure PendingAuth where
  client_id : String
  redirect_uri : String
  scopes : List String
  state : Option String
  code_challenge : Option String
  expires_at : Int
deriving Repr, DecidableEq

/-- The SDK `AccessToken` object returned by the provider; its `claims`
dict (`{"user": user, "sub": user}`) is modelled as a string association
list. -/
structure AccessToken where
  token : String
  client_id : String
  scopes : List String
  expires_at : Int
  claims : List (String × String)
deriving Repr, DecidableEq

/-- The SDK `RefreshToken` object returned by the provider. -/
structure RefreshToken where
  token : String
  client_id : String
  scopes : List String
  expires_at : Int
deriving Repr, DecidableEq

/-- The SDK `AuthorizationCode` object passed to `exchange_authorization_code`. -/
structure AuthorizationCode where
  code : String
  client_id : String
  redirect_uri : String
  scopes : List String
  code_challenge : Option String
  expires_at : Int
deriving Repr, DecidableEq

/-- The fields of the SDK `AuthorizationParams` that `authorize` reads;
`scopes` is optional in the SDK (`params.scopes or []`). -/
structure AuthorizationParams where
  redirect_uri : String
  scopes : Option (List String)
  state : Option String
  code_challenge : Option String
deriving Repr, DecidableEq

/-- The in-memory storage of `HtpasswdAuth.__init__` (the `_clients` map is
not touched by any operation modelled here and is omitted). -/
structure AuthState where
  tokens : Store StoredToken
  auth_codes : Store StoredAuthCode
  refresh_tokens : Store StoredToken
  pending_auths : Store PendingAuth
deriving Repr, DecidableEq

/-! ### Constants -/

def ACCESS_TOKEN_LIFETIME : Int := 30 * 24 * 3600
def REFRESH_TOKEN_LIFETIME : Int := 30 * 24 * 3600
def AUTH_CODE_LIFETIME : Int := 600
def PENDING_AUTH_LIFETIME : Int := 600

/-! ### Operations of `HtpasswdAuth` -/

/-- `HtpasswdAuth._cleanup_expired`: keep only records with `expires_at > now`. -/
def cleanup_expired (now : Int) (st : AuthState) : AuthState :=
  { tokens := st.tokens.filter (fun p => decide (p.2.expires_at > now)),
    auth_codes := st.auth_codes.filter (fun p => decide (p.2.expires_at > now)),
    refresh_tokens := st.refresh_tokens.filter (fun p => decide (p.2.expires_at > now)),
    pending_auths := st.pending_auths.filter (fun p => decide (p.2.expires_at > now)) }

/-- `HtpasswdAuth.authorize`: store a fresh `PendingAuth` under the freshly
generated `pending_id` and return the login URL.  `client.client_id or ""`
and `params.scopes or []` are the Python truthiness defaults. -/
def authorize (now : Int) (pending_id : String) (base : String)
    (client_id : Option String) (params : AuthorizationParams)
    (st : AuthState) : String × AuthState :=
  let pending : PendingAuth :=
    { client_id := (client_id.getD ""),
      redirect_uri := params.redirect_uri,
      scopes := params.scopes.getD [],
      state := params.state,
      code_challenge := params.code_challenge,
      expires_at := now + PENDING_AUTH_LIFETIME }
  (base ++ "/login?pending=" ++ pending_id,
   { st with pending_auths := st.pending_auths.set pending_id pending })

/-- The three possible responses of the POST branch of `_handle_login`. -/
inductive LoginResult where
  /-- `HTMLResponse("Session expired. Please try again.", status_code=400)` -/
  | sessionExpired : LoginResult
  /-- 302 redirect to `redirect_uri` carrying `redirect_params` (the dict
  built before `urlencode`). -/
  | redirect (redirect_uri : String) (params : List (String × String)) : LoginResult
  /-- the re-rendered login form, with an optional error message -/
  | loginForm (error : Option String) : LoginResult
deriving Repr, DecidableEq

/-- The `redirect_params` dict of `_handle_login`: `{"code": code}`, plus
`"state"` exactly when `pending.state` is truthy (non-`None` and non-empty). -/
def redirectParams (code : String) (st : Option String) : List (String × String) :=
  match st with
  | some s => if s = "" then [("code", code)] else [("code", code), ("state", s)]
  | none => [("code", code)]

/-- The POST branch of `HtpasswdAuth._handle_login`.  `verify_ok` is the
result of `self._verify_user(username, password)`; `pending_id` is the form
field (with the query-parameter fallback already applied, `none` when
absent); `fresh_code` is the string `self._generate_token("code_")` returned. -/
def handle_login_post (verify_ok : Bool) (username : String)
    (pending_id : Option String) (fresh_code : String) (now : Int)
    (st : AuthState) : LoginResult × AuthState :=
  if verify_ok then
    -- `pending = self._pending_auths.pop(pending_id, None) if pending_id else None`
    let popped : Option PendingAuth :=
      match pending_id with
      | some pid => if pid = "" then none else st.pending_auths.lookup pid
      | none => none
    match popped with
    | none => (.sessionExpired, st)
    | some pending =>
      let stPopped := { st with
        pending_auths := st.pending_auths.erase (pending_id.getD "") }
      let code : StoredAuthCode :=
        { code := fresh_code,
          client_id := pending.client_id,
          redirect_uri := pending.redirect_uri,
          scopes := pending.scopes,
          code_challenge := pending.code_challenge,
          expires_at := now + AUTH_CODE_LIFETIME,
          user := username }
      (.redirect pending.redirect_uri (redirectParams fresh_code pending.state),
       { stPopped with auth_codes := stPopped.auth_codes.set fresh_code code })
  else
    (.loginForm (some "Invalid username or password"), st)

/-- `HtpasswdAuth.load_authorization_code`: sweep, then read-only lookup. -/
def load_authorization_code (now : Int) (code : String) (st : AuthState) :
    Option AuthorizationCode × AuthState :=
  let st := cleanup_expired now st
  match st.auth_codes.lookup code with
  | none => (none, st)
  | some stored =>
    (some { code := stored.code,
            client_id := stored.client_id,
            redirect_uri := stored.redirect_uri,
            scopes := stored.scopes,
            code_challenge := stored.code_challenge,
            expires_at := stored.expires_at }, st)

/-- `HtpasswdAuth.exchange_authorization_code`: pop the stored code (absence
raises `ValueError("Invalid authorization code")`), then mint an access and
a refresh token.  `at_str`/`rt_str` are the freshly generated token strings. -/
def exchange_authorization_code (now : Int) (at_str rt_str : String)
    (ac : AuthorizationCode) (st : AuthState) :
    Except String (AccessToken × RefreshToken) × AuthState :=
  match st.auth_codes.lookup ac.code with
  | none => (.error "Invalid authorization code", st)
  | some stored =>
    let user := stored.user
    let st1 := { st with auth_codes := st.auth_codes.erase ac.code }
    let st2 := { st1 with
      tokens := st1.tokens.set at_str
        { token := at_str, user := user, scopes := ac.scopes,
          expires_at := now + ACCESS_TOKEN_LIFETIME, client_id := ac.client_id },
      refresh_tokens := st1.refresh_tokens.set rt_str
        { token := rt_str, user := user, scopes := ac.scopes,
          expires_at := now + REFRESH_TOKEN_LIFETIME, client_id := ac.client_id } }
    (.ok ({ token := at_str, client_id := ac.client_id, scopes := ac.scopes,
            expires_at := now + ACCESS_TOKEN_LIFETIME,
            claims := [("user", user), ("sub", user)] },
          { token := rt_str, client_id := ac.client_id, scopes := ac.scopes,
            expires_at := now + REFRESH_TOKEN_LIFETIME }), st2)

/-- `HtpasswdAuth.load_access_token`: sweep, then read-only lookup. -/
def load_access_token (now : Int) (token : String) (st : AuthState) :
    Option AccessToken × AuthState :=
  let st := cleanup_expired now st
  match st.tokens.lookup token with
  | none => (none, st)
  | some stored =>
    (some { token := stored.token, client_id := stored.client_id,
            scopes := stored.scopes, expires_at := stored.expires_at,
            claims := [("user", stored.user), ("sub", stored.user)] }, st)

/-- `HtpasswdAuth.load_refresh_token`: sweep, then read-only lookup. -/
def load_refresh_token (now : Int) (token : String) (st : AuthState) :
    Option RefreshToken × AuthState :=
  let st := cleanup_expired now st
  match st.refresh_tokens.lookup token with
  | none => (none, st)
  | some stored =>
    (some { token := stored.token, client_id := stored.client_id,
            scopes := stored.scopes, expires_at := stored.expires_at }, st)

/-- `HtpasswdAuth.exchange_refresh_token`: pop the stored refresh token
(absence raises `ValueError("Invalid refresh token")`); effective scopes
are `scopes if scopes else refresh_token.scopes`; mint and store a new
access/refresh pair. -/
def exchange_refresh_token (now : Int) (at_str rt_str : String)
    (rt : RefreshToken) (scopes : List String) (st : AuthState) :
    Except String (AccessToken × RefreshToken) × AuthState :=
  match st.refresh_tokens.lookup rt.token with
  | none => (.error "Invalid refresh token", st)
  | some stored =>
    let user := stored.user
    let token_scopes := if scopes = [] then rt.scopes else scopes
    let st1 := { st with refresh_tokens := st.refresh_tokens.erase rt.token }
    let st2 := { st1 with
      tokens := st1.tokens.set at_str
        { token := at_str, user := user, scopes := token_scopes,
          expires_at := now + ACCESS_TOKEN_LIFETIME, client_id := rt.client_id },
      refresh_tokens := st1.refresh_tokens.set rt_str
        { token := rt_str, user := user, scopes := token_scopes,
          expires_at := now + REFRESH_TOKEN_LIFETIME, client_id := rt.client_id } }
    (.ok ({ token := at_str, client_id := rt.client_id, scopes := token_scopes,
            expires_at := now + ACCESS_TOKEN_LIFETIME,
            claims := [("user", user), ("sub", user)] },
          { token := rt_str, client_id := rt.client_id, scopes := token_scopes,
            expires_at := now + REFRESH_TOKEN_LIFETIME }), st2)

/-- `HtpasswdAuth.revoke_token`: unconditional removal from both token stores. -/
def revoke_token (token : String) (st : AuthState) : AuthState :=
  { st with tokens := st.tokens.erase token,
            refresh_tokens := st.refresh_tokens.erase token }

/-!
### `token_db.py`: the JSON-persisted `TokenDB`

The persisted variant serialises dataclasses with `dataclasses.asdict`
(emitting every field, in declaration order) and deserialises with
`Cls(**v)` keyword expansion (fields found by name; an unknown key raises
`TypeError`).  JSON values are modelled by the inductive `Json`; numbers
are `Int` (timestamps, the only numbers stored).  Python dataclass
construction does not type-check field values; the decoders below require
the JSON type matching the field type, which coincides with the code on
every value `_save` can produce.
-/

namespace TokenDB

inductive Json where
  | null : Json
  | bool (b : Bool) : Json
  | num (n : Int) : Json
  | str (s : String) : Json
  | arr (elems : List Json) : Json
  | obj (fields : List (String × Json)) : Json
deriving Repr

/-- `token_db.py` dataclass `StoredToken` (same fields as the in-memory one). -/
structure StoredToken where
  token : String
  user : String
  scopes : List String
  expires_at : Int
  client_id : String
deriving Repr, DecidableEq

/-- `token_db.py` dataclass `StoredAuthCode`; unlike the in-memory variant it
carries `redirect_uri_provided_explicitly` with default `True`. -/
structure StoredAuthCode where
  code : String
  client_id : String
  redirect_uri : String
  scopes : List String
  code_challenge : Option String
  expires_at : Int
  user : String
  redirect_uri_provided_explicitly : Bool
deriving Repr, DecidableEq

/-- `token_db.py` dataclass `PendingAuth`, with the same extra field. -/
structure PendingAuth where
  client_id : String
  redirect_uri : String
  scopes : List String
  state : Option String
  code_challenge : Option String
  expires_at : Int
  redirect_uri_provided_explicitly : Bool
deriving Repr, DecidableEq

/-- `PermissiveClient` (pydantic `OAuthClientInformationFull`), restricted to
the fields this repository sets; serialised by `model_dump(mode="json")` and
parsed by `model_validate`. -/
structure Client where
  client_id : String
  client_secret : Option String
  redirect_uris : List String
  client_name : Option String
deriving Repr, DecidableEq

/-- The five collections of `TokenDB.__init__`. -/
structure DB where
  tokens : Store StoredToken
  auth_codes : Store StoredAuthCode
  refresh_tokens : Store StoredToken
  pending_auths : Store PendingAuth
  clients : Store Client
deriving Repr, DecidableEq

def DB.empty : DB := ⟨[], [], [], [], []⟩

/-! #### Serialisation (`TokenDB._save`) -/

def encodeOptStr : Option String → Json
  | none => .null
  | some s => .str s

def encodeStrs (l : List String) : Json := .arr (l.map Json.str)

def encodeToken (t : StoredToken) : Json :=
  .obj [("token", .str t.token), ("user", .str t.user),
        ("scopes", encodeStrs t.scopes), ("expires_at", .num t.expires_at),
        ("client_id", .str t.client_id)]

def encodeAuthCode (c : StoredAuthCode) : Json :=
  .obj [("code", .str c.code), ("client_id", .str c.client_id),
        ("redirect_uri", .str c.redirect_uri), ("scopes", encodeStrs c.scopes),
        ("code_challenge", encodeOptStr c.code_challenge),
        ("expires_at", .num c.expires_at), ("user", .str c.user),
        ("redirect_uri_provided_explicitly", .bool c.redirect_uri_provided_explicitly)]

def encodePending (p : PendingAuth) : Json :=
  .obj [("client_id", .str p.client_id), ("redirect_uri", .str p.redirect_uri),
        ("scopes", encodeStrs p.scopes), ("state", encodeOptStr p.state),
        ("code_challenge", encodeOptStr p.code_challenge),
        ("expires_at", .num p.expires_at),
        ("redirect_uri_provided_explicitly", .bool p.redirect_uri_provided_explicitly)]

def encodeClient (c : Client) : Json :=
  .obj [("client_id", .str c.client_id),
        ("client_secret", encodeOptStr c.client_secret),
        ("redirect_uris", encodeStrs c.redirect_uris),
        ("client_name", encodeOptStr c.client_name)]

def encodeMap {α : Type} (enc : α → Json) (s : Store α) : Json :=
  .obj (s.map (fun p => (p.1, enc p.2)))

/-- `TokenDB._save`: the JSON document written to the backing file. -/
def save (db : DB) : Json :=
  .obj [("tokens", encodeMap encodeToken db.tokens),
        ("auth_codes", encodeMap encodeAuthCode db.auth_codes),
        ("refresh_tokens", encodeMap encodeToken db.refresh_tokens),
        ("pending_auths", encodeMap encodePending db.pending_auths),
        ("clients", encodeMap encodeClient db.clients)]

/-! #### Deserialisation (`TokenDB._load`) -/

def asStr : Json → Option String
  | .str s => some s
  | _ => none

def asInt : Json → Option Int
  | .num n => some n
  | _ => none

def asBool : Json → Option Bool
  | .bool b => some b
  | _ => none

def asOptStr : Json → Option (Option String)
  | .null => some none
  | .str s => some (some s)
  | _ => none

def decodeStrs : List Json → Option (List String)
  | [] => some []
  | j :: js =>
    match asStr j, decodeStrs js with
    | some s, some l => some (s :: l)
    | _, _ => none

def asStrs : Json → Option (List String)
  | .arr xs => decodeStrs xs
  | _ => none

def tokenKeys : List String := ["token", "user", "scopes", "expires_at", "client_id"]

/-- `StoredToken(**v)`: every key must name a field, all fields required. -/
def decodeToken : Json → Option StoredToken
  | .obj f => do
    if !f.all (fun p => tokenKeys.contains p.1) then none else
    let t ← List.lookup "token" f >>= asStr
    let u ← List.lookup "user" f >>= asStr
    let s ← List.lookup "scopes" f >>= asStrs
    let e ← List.lookup "expires_at" f >>= asInt
    let c ← List.lookup "client_id" f >>= asStr
    pure ⟨t, u, s, e, c⟩
  | _ => none

def authCodeKeys : List String :=
  ["code", "client_id", "redirect_uri", "scopes", "code_challenge",
   "expires_at", "user", "redirect_uri_provided_explicitly"]

/-- `StoredAuthCode(**v)`; `redirect_uri_provided_explicitly` defaults to
`True` when absent. -/
def decodeAuthCode : Json → Option StoredAuthCode
  | .obj f => do
    if !f.all (fun p => authCodeKeys.contains p.1) then none else
    let c ← List.lookup "code" f >>= asStr
    let ci ← List.lookup "client_id" f >>= asStr
    let ru ← List.lookup "redirect_uri" f >>= asStr
    let s ← List.lookup "scopes" f >>= asStrs
    let cc ← List.lookup "code_challenge" f >>= asOptStr
    let e ← List.lookup "expires_at" f >>= asInt
    let u ← List.lookup "user" f >>= asStr
    let r ← match List.lookup "redirect_uri_provided_explicitly" f with
      | none => some true
      | some j => asBool j
    pure ⟨c, ci, ru, s, cc, e, u, r⟩
  | _ => none

def pendingKeys : List String :=
  ["client_id", "redirect_uri", "scopes", "state", "code_challenge",
   "expires_at", "redirect_uri_provided_explicitly"]

/-- `PendingAuth(**v)`; same default for the last field. -/
def decodePending : Json → Option PendingAuth
  | .obj f => do
    if !f.all (fun p => pendingKeys.contains p.1) then none else
    let ci ← List.lookup "client_id" f >>= asStr
    let ru ← List.lookup "redirect_uri" f >>= asStr
    let s ← List.lookup "scopes" f >>= asStrs
    let st ← List.lookup "state" f >>= asOptStr
    let cc ← List.lookup "code_challenge" f >>= asOptStr
    let e ← List.lookup "expires_at" f >>= asInt
    let r ← match List.lookup "redirect_uri_provided_explicitly" f with
      | none => some true
      | some j => asBool j
    pure ⟨ci, ru, s, st, cc, e, r⟩
  | _ => none

/-- `PermissiveClient.model_validate(v)` over the modelled fields; the two
optional fields default to `None` when absent. -/
def decodeClient : Json → Option Client
  | .obj f => do
    let ci ← List.lookup "client_id" f >>= asStr
    let cs ← match List.lookup "client_secret" f with
      | none => some none
      | some j => asOptStr j
    let ru ← List.lookup "redirect_uris" f >>= asStrs
    let cn ← match List.lookup "client_name" f with
      | none => some none
      | some j => asOptStr j
    pure ⟨ci, cs, ru, cn⟩
  | _ => none

/-- Decode one persisted collection pairwise (the dict comprehension
`{k: Cls(**v) for k, v in ....items()}`). -/
def decodeMap {α : Type} (dec : Json → Option α) :
    List (String × Json) → Option (Store α)
  | [] => some []
  | (k, j) :: rest =>
    match dec j, decodeMap dec rest with
    | some v, some m => some ((k, v) :: m)
    | _, _ => none

/-- Outcome of one loading statement of `_load`: success, an exception the
surrounding `except (json.JSONDecodeError, TypeError, KeyError)` catches, or
an exception it does not catch (which escapes `TokenDB.__init__`). -/
inductive LoadStep (α : Type) where
  | ok (v : α) : LoadStep α
  | caught : LoadStep α
  | crash : LoadStep α

/-- `{k: Cls(**v) for k, v in data.get(name, {}).items()}`: an absent key
yields `{}`; a non-object value raises `AttributeError` on `.items()`
(uncaught); a record that fails keyword construction raises `TypeError`
(caught). -/
def loadCollection {α : Type} (dec : Json → Option α) (name : String)
    (fields : List (String × Json)) : LoadStep (Store α) :=
  match List.lookup name fields with
  | none => .ok []
  | some (.obj m) =>
    match decodeMap dec m with
    | some s => .ok s
    | none => .caught
  | some _ => .crash

/-- The clients loop: a record failing `model_validate` raises pydantic
`ValidationError`, which the `except` clause does not list, so it escapes. -/
def loadClients (fields : List (String × Json)) : LoadStep (Store Client) :=
  match List.lookup "clients" fields with
  | none => .ok []
  | some (.obj m) =>
    match decodeMap decodeClient m with
    | some s => .ok s
    | none => .crash
  | some _ => .crash

/-- The state of the backing file when `TokenDB.__init__` runs. -/
inductive LoadInput where
  /-- the file does not exist (`self._path.exists()` is false) -/
  | missing : LoadInput
  /-- the file exists but `json.loads` raises `JSONDecodeError` -/
  | invalidJson : LoadInput
  /-- the file parses to this JSON document -/
  | parsed (j : Json) : LoadInput

/-- `TokenDB._load` as run by `__init__`: `.ok db` means construction
succeeds with collections `db`; `.error ()` means an uncaught exception
escapes.  The five assignment statements run in order inside one `try`:
a caught exception stops the sequence but keeps collections already
assigned. -/
def load : LoadInput → Except Unit DB
  | .missing => .ok DB.empty
  | .invalidJson => .ok DB.empty
  | .parsed (Json.obj fields) =>
    match loadCollection decodeToken "tokens" fields with
    | .crash => .error ()
    | .caught => .ok DB.empty
    | .ok toks =>
      match loadCollection decodeAuthCode "auth_codes" fields with
      | .crash => .error ()
      | .caught => .ok { DB.empty with tokens := toks }
      | .ok acs =>
        match loadCollection decodeToken "refresh_tokens" fields with
        | .crash => .error ()
        | .caught => .ok { DB.empty with tokens := toks, auth_codes := acs }
        | .ok rts =>
          match loadCollection decodePending "pending_auths" fields with
          | .crash => .error ()
          | .caught =>
            .ok { DB.empty with tokens := toks, auth_codes := acs,
                                refresh_tokens := rts }
          | .ok pas =>
            match loadClients fields with
            | .crash => .error ()
            | .caught =>
              .ok { tokens := toks, auth_codes := acs, refresh_tokens := rts,
                    pending_auths := pas, clients := [] }
            | .ok cls =>
              .ok { tokens := toks, auth_codes := acs, refresh_tokens := rts,
                    pending_auths := pas, clients := cls }
  -- `data.get(...)` on a non-dict top-level value raises `AttributeError`,
  -- which the `except` clause does not list.
  | .parsed _ => .error ()

end TokenDB

/-! ### Concrete fixtures used by witness and counterexample theorems -/

def atomicityCode : StoredAuthCode :=
  { code := "code1", client_id := "c1", redirect_uri := "http://cb",
    scopes := ["read"], code_challenge := none, expires_at := 600,
    user := "admin" }

def atomicityState : AuthState :=
  { tokens := [], auth_codes := [("code1", atomicityCode)],
    refresh_tokens := [], pending_auths := [] }

def atomicityAC : AuthorizationCode :=
  { code := "code1", client_id := "c1", redirect_uri := "http://cb",
    scopes := ["read"], code_challenge := none, expires_at := 600 }

def atomicityACMissing : AuthorizationCode :=
  { code := "absent", client_id := "c1", redirect_uri := "http://cb",
    scopes := ["read"], code_challenge := none, expires_at := 600 }

def singleUseCode : StoredAuthCode :=
  { code := "code1", client_id := "c1", redirect_uri := "http://cb",
    scopes := ["read"], code_challenge := none, expires_at := 600,
    user := "admin" }

def singleUseRT : StoredToken :=
  { token := "rtOld", user := "admin", scopes := ["read"],
    expires_at := 2592000, client_id := "c1" }

def singleUseState : AuthState :=
  { tokens := [], auth_codes := [("code1", singleUseCode)],
    refresh_tokens := [("rtOld", singleUseRT)], pending_auths := [] }

def singleUseAC : AuthorizationCode :=
  { code := "code1", client_id := "c1", redirect_uri := "http://cb",
    scopes := ["read"], code_challenge := none, expires_at := 600 }

def singleUseRTParam : RefreshToken :=
  { token := "rtOld", client_id := "c1", scopes := ["read"],
    expires_at := 2592000 }

def expiredTok : StoredToken :=
  { token := "x", user := "admin", scopes := ["read"], expires_at := 50,
    client_id := "c1" }

def expiredCode : StoredAuthCode :=
  { code := "x", client_id := "c1", redirect_uri := "http://cb",
    scopes := ["read"], code_challenge := none, expires_at := 50,
    user := "admin" }

def expiredPendingRec : PendingAuth :=
  { client_id := "c1", redirect_uri := "http://cb", scopes := ["read"],
    state := none, code_challenge := none, expires_at := 50 }

def expiredState : AuthState :=
  { tokens := [("x", expiredTok)], auth_codes := [("x", expiredCode)],
    refresh_tokens := [("x", expiredTok)],
    pending_auths := [("x", expiredPendingRec)] }

def expiredLoginState : AuthState :=
  { tokens := [], auth_codes := [], refresh_tokens := [],
    pending_auths := [("p1", expiredPendingRec)] }

/-- The `AuthorizationCode` object that `load_authorization_code` returns for
the code minted by a successful login completing `authorize now _ _ client_id
params _`. -/
def mintedAuthCode (now : Int) (code1 : String) (client_id : Option String)
    (params : AuthorizationParams) : AuthorizationCode :=
  { code := code1, client_id := client_id.getD "",
    redirect_uri := params.redirect_uri, scopes := params.scopes.getD [],
    code_challenge := params.code_challenge,
    expires_at := now + AUTH_CODE_LIFETIME }

def roundTripParams : AuthorizationParams :=
  { redirect_uri := "http://cb", scopes := some ["read"], state := none,
    code_challenge := none }

def emptyAuthState : AuthState :=
  { tokens := [], auth_codes := [], refresh_tokens := [], pending_auths := [] }

def corruptTok : TokenDB.StoredToken :=
  { token := "t", user := "admin", scopes := ["read"], expires_at := 100,
    client_id := "c1" }

/-- A syntactically valid JSON document whose `auth_codes` collection holds a
record (`5`) that `StoredAuthCode(**v)` rejects with `TypeError`, while the
`tokens` collection before it is well-formed. -/
def corruptDoc : TokenDB.Json :=
  .obj [("tokens", .obj [("t", TokenDB.encodeToken corruptTok)]),
        ("auth_codes", .obj [("c", .num 5)])]

def falsyStatePending : PendingAuth :=
  { client_id := "c1", redirect_uri := "http://cb", scopes := ["read"],
    state := some "", code_challenge := none, expires_at := 600 }

def falsyStateStore : AuthState :=
  { tokens := [], auth_codes := [], refresh_tokens := [],
    pending_auths := [("p1", falsyStatePending)] }

/-! ### Store lemmas -/

theorem Store.lookup_set_self {α : Type} (s : Store α) (k : String) (v : α) :
    (s.set k v).lookup k = some v := by
  simp [Store.set, Store.lookup, List.lookup]

theorem Store.lookup_set_ne {α : Type} (s : Store α) (k k' : String) (v : α)
    (h : k' ≠ k) : (s.set k v).lookup k' = (s.erase k).lookup k' := by
  have hb : (k' == k) = false := by simp [h]
  simp [Store.set, Store.lookup, List.lookup, hb]

theorem Store.lookup_filter_none_of {α : Type} (f : String × α → Bool)
    (s : Store α) (k : String) (h : ∀ v, (k, v) ∈ s → f (k, v) = false) :
    (s.filter f).lookup k = none := by
  induction s with
  | nil => rfl
  | cons p t ih =>
    have ht : ∀ v, (k, v) ∈ t → f (k, v) = false := fun v hv => h v (List.mem_cons_of_mem _ hv)
    by_cases hk : k = p.1
    · have : f p = false := by
        have := h p.2 (by simp [hk])
        simpa [hk] using this
      simp only [List.filter]
      rw [this]
      exact ih ht
    · simp only [List.filter]
      cases hf : f p with
      | true =>
        simp only [Store.lookup, List.lookup]
        have : (k == p.1) = false := by simp [hk]
        rw [this]
        exact ih ht
      | false => exact ih ht

theorem Store.not_mem_erase_self {α : Type} (s : Store α) (k : String) (v : α) :
    ¬ (k, v) ∈ s.erase k := by
  intro h
  have := List.of_mem_filter h
  simp at this

theorem Store.lookup_erase_self {α : Type} (s : Store α) (k : String) :
    (s.erase k).lookup k = none := by
  have : s.erase k = (s.erase k).filter (fun _ => true) := by simp
  rw [this]
  exact Store.lookup_filter_none_of _ _ _
    (fun v hv => absurd hv (Store.not_mem_erase_self s k v))

theorem Store.lookup_filter_set_self {α : Type} (f : String × α → Bool)
    (s : Store α) (k : String) (v : α) (h : f (k, v) = true) :
    ((s.set k v).filter f).lookup k = some v := by
  simp only [Store.set, List.filter, h]
  simp [Store.lookup, List.lookup]

/-! ### Claim theorems -/

/-- C7: a login submission whose credential verification fails returns the
re-rendered form with an error and leaves the whole store state unchanged —
in particular the referenced `PendingAuth` keeps every field (including
`expires_at`) and no authorization code is created. -/
theorem failed_login_leaves_state_unchanged (username : String)
    (pending_id : Option String) (fresh_code : String) (now : Int)
    (st : AuthState) :
    handle_login_post false username pending_id fresh_code now st
      = (.loginForm (some "Invalid username or password"), st) := rfl

/-- C8: `revoke_token` removes the token from both the access- and the
refresh-token stores without a type hint, so both loads subsequently return
`none`, and revoking again is a no-op (idempotent, total on unknown tokens). -/
theorem revoke_token_both_stores (t : String) (now : Int) (st : AuthState) :
    (load_access_token now t (revoke_token t st)).1 = none ∧
    (load_refresh_token now t (revoke_token t st)).1 = none ∧
    revoke_token t (revoke_token t st) = revoke_token t st := by
  have h1 : ((st.tokens.erase t).filter
      (fun p => decide (now < p.2.expires_at))).lookup t = none :=
    Store.lookup_filter_none_of _ _ _
      (fun v hv => absurd hv (Store.not_mem_erase_self _ _ _))
  have h2 : ((st.refresh_tokens.erase t).filter
      (fun p => decide (now < p.2.expires_at))).lookup t = none :=
    Store.lookup_filter_none_of _ _ _
      (fun v hv => absurd hv (Store.not_mem_erase_self _ _ _))
  refine ⟨?_, ?_, ?_⟩
  · simp [load_access_token, cleanup_expired, revoke_token, Store.lookup, h1]
  · simp [load_refresh_token, cleanup_expired, revoke_token, Store.lookup, h2]
  · simp [revoke_token, Store.erase, List.filter_filter]

/-- C10: on successful login the `state` parameter is omitted from the
redirect not only when the stored `state` is `None` but also when it is the
empty string, because `if pending.state:` tests truthiness. -/
theorem login_redirect_omits_falsy_state (username pid fresh_code : String)
    (now : Int) (st : AuthState) (pending : PendingAuth)
    (hpid : pid ≠ "")
    (hlook : st.pending_auths.lookup pid = some pending)
    (hstate : pending.state = none ∨ pending.state = some "") :
    (handle_login_post true username (some pid) fresh_code now st).1
      = .redirect pending.redirect_uri [("code", fresh_code)] := by
  simp only [handle_login_post, if_true, if_neg hpid, hlook]
  rcases hstate with h | h <;> simp [redirectParams, h]

theorem Store.lookup_filter_none {α : Type} (f : String × α → Bool)
    (s : Store α) (k : String) (h : s.lookup k = none) :
    (s.filter f).lookup k = none := by
  induction s with
  | nil => rfl
  | cons p t ih =>
    simp only [Store.lookup, List.lookup] at h
    cases hkp : (k == p.1) with
    | true => rw [hkp] at h; exact absurd h (by simp)
    | false =>
      rw [hkp] at h
      simp only [List.filter]
      cases f p with
      | true =>
        simp only [Store.lookup, List.lookup, hkp]
        exact ih h
      | false => exact ih h

/-- C4: `exchange_authorization_code` is atomic — when the code is absent it
raises and returns the store unchanged; when present it removes exactly that
code and stores one access and one refresh token sharing `user`, `client_id`
and `scopes`, leaving the pending-auth map untouched. -/
theorem exchange_code_atomicity (now : Int) (at_str rt_str : String)
    (ac : AuthorizationCode) (st : AuthState) :
    (st.auth_codes.lookup ac.code = none →
      exchange_authorization_code now at_str rt_str ac st
        = (.error "Invalid authorization code", st)) ∧
    (∀ stored, st.auth_codes.lookup ac.code = some stored →
      exchange_authorization_code now at_str rt_str ac st
        = (.ok ({ token := at_str, client_id := ac.client_id, scopes := ac.scopes,
                  expires_at := now + ACCESS_TOKEN_LIFETIME,
                  claims := [("user", stored.user), ("sub", stored.user)] },
                { token := rt_str, client_id := ac.client_id, scopes := ac.scopes,
                  expires_at := now + REFRESH_TOKEN_LIFETIME }),
           { tokens := st.tokens.set at_str
               { token := at_str, user := stored.user, scopes := ac.scopes,
                 expires_at := now + ACCESS_TOKEN_LIFETIME, client_id := ac.client_id },
             auth_codes := st.auth_codes.erase ac.code,
             refresh_tokens := st.refresh_tokens.set rt_str
               { token := rt_str, user := stored.user, scopes := ac.scopes,
                 expires_at := now + REFRESH_TOKEN_LIFETIME, client_id := ac.client_id },
             pending_auths := st.pending_auths })) := by
  constructor
  · intro h
    simp [exchange_authorization_code, h]
  · intro stored h
    simp [exchange_authorization_code, h]

theorem exchange_code_atomicity_witness :
    (exchange_authorization_code 0 "at1" "rt1" atomicityACMissing atomicityState
      = (.error "Invalid authorization code", atomicityState)) ∧
    (exchange_authorization_code 0 "at1" "rt1" atomicityAC atomicityState
      = (.ok ({ token := "at1", client_id := "c1", scopes := ["read"],
                expires_at := 0 + ACCESS_TOKEN_LIFETIME,
                claims := [("user", "admin"), ("sub", "admin")] },
              { token := "rt1", client_id := "c1", scopes := ["read"],
                expires_at := 0 + REFRESH_TOKEN_LIFETIME }),
         { tokens := atomicityState.tokens.set "at1"
             { token := "at1", user := "admin", scopes := ["read"],
               expires_at := 0 + ACCESS_TOKEN_LIFETIME, client_id := "c1" },
           auth_codes := atomicityState.auth_codes.erase "code1",
           refresh_tokens := atomicityState.refresh_tokens.set "rt1"
             { token := "rt1", user := "admin", scopes := ["read"],
               expires_at := 0 + REFRESH_TOKEN_LIFETIME, client_id := "c1" },
           pending_auths := atomicityState.pending_auths })) :=
  ⟨(exchange_code_atomicity 0 "at1" "rt1" atomicityACMissing atomicityState).1 rfl,
   (exchange_code_atomicity 0 "at1" "rt1" atomicityAC atomicityState).2
     atomicityCode rfl⟩

/-- C1: grants are single-use.  After one successful
`exchange_authorization_code` the code is gone from the store, so a second
exchange with the same code raises the invalid-grant error and the code can
no longer be loaded; likewise one `exchange_refresh_token` invalidates the
old refresh token permanently (rotation), provided the freshly generated
replacement string differs from it (guaranteed up to collision of
`secrets.token_urlsafe`). -/
theorem exchange_single_use (now now2 : Int) (at1 rt1 at2 rt2 : String)
    (scopes1 scopes2 : List String) (ac : AuthorizationCode)
    (rt : RefreshToken) (st st' : AuthState)
    (hc : (st.auth_codes.lookup ac.code).isSome = true)
    (hr : (st'.refresh_tokens.lookup rt.token).isSome = true)
    (hfresh : rt1 ≠ rt.token) :
    (exchange_authorization_code now2 at2 rt2 ac
        (exchange_authorization_code now at1 rt1 ac st).2).1
      = .error "Invalid authorization code" ∧
    (load_authorization_code now2 ac.code
        (exchange_authorization_code now at1 rt1 ac st).2).1 = none ∧
    (exchange_refresh_token now2 at2 rt2 rt scopes2
        (exchange_refresh_token now at1 rt1 rt scopes1 st').2).1
      = .error "Invalid refresh token" ∧
    (load_refresh_token now2 rt.token
        (exchange_refresh_token now at1 rt1 rt scopes1 st').2).1 = none := by
  obtain ⟨sc, hsc⟩ := Option.isSome_iff_exists.mp hc
  obtain ⟨sr, hsr⟩ := Option.isSome_iff_exists.mp hr
  have hinner1 : (exchange_authorization_code now at1 rt1 ac st).2
      = { tokens := st.tokens.set at1
            { token := at1, user := sc.user, scopes := ac.scopes,
              expires_at := now + ACCESS_TOKEN_LIFETIME, client_id := ac.client_id },
          auth_codes := st.auth_codes.erase ac.code,
          refresh_tokens := st.refresh_tokens.set rt1
            { token := rt1, user := sc.user, scopes := ac.scopes,
              expires_at := now + REFRESH_TOKEN_LIFETIME, client_id := ac.client_id },
          pending_auths := st.pending_auths } := by
    simp [exchange_authorization_code, hsc]
  have hinner2 : (exchange_refresh_token now at1 rt1 rt scopes1 st').2
      = { tokens := st'.tokens.set at1
            { token := at1, user := sr.user,
              scopes := if scopes1 = [] then rt.scopes else scopes1,
              expires_at := now + ACCESS_TOKEN_LIFETIME, client_id := rt.client_id },
          auth_codes := st'.auth_codes,
          refresh_tokens := (st'.refresh_tokens.erase rt.token).set rt1
            { token := rt1, user := sr.user,
              scopes := if scopes1 = [] then rt.scopes else scopes1,
              expires_at := now + REFRESH_TOKEN_LIFETIME, client_id := rt.client_id },
          pending_auths := st'.pending_auths } := by
    simp [exchange_refresh_token, hsr]
  have hrtnone : ((st'.refresh_tokens.erase rt.token).set rt1
      { token := rt1, user := sr.user,
        scopes := if scopes1 = [] then rt.scopes else scopes1,
        expires_at := now + REFRESH_TOKEN_LIFETIME,
        client_id := rt.client_id } : Store StoredToken).lookup rt.token = none := by
    rw [Store.lookup_set_ne _ _ _ _ (Ne.symm hfresh)]
    exact Store.lookup_filter_none _ _ _ (Store.lookup_erase_self _ _)
  refine ⟨?_, ?_, ?_, ?_⟩
  · rw [hinner1]
    simp [exchange_authorization_code, Store.lookup_erase_self]
  · rw [hinner1]
    have h2 : ((st.auth_codes.erase ac.code).filter
        (fun p => decide (now2 < p.2.expires_at))).lookup ac.code = none :=
      Store.lookup_filter_none _ _ _ (Store.lookup_erase_self _ _)
    simp [load_authorization_code, cleanup_expired, Store.lookup, h2]
  · rw [hinner2]
    simp [exchange_refresh_token, hrtnone]
  · rw [hinner2]
    have h4 : (((st'.refresh_tokens.erase rt.token).set rt1
        { token := rt1, user := sr.user,
          scopes := if scopes1 = [] then rt.scopes else scopes1,
          expires_at := now + REFRESH_TOKEN_LIFETIME,
          client_id := rt.client_id } : Store StoredToken).filter
        (fun p => decide (now2 < p.2.expires_at))).lookup rt.token = none :=
      Store.lookup_filter_none _ _ _ hrtnone
    simp [load_refresh_token, cleanup_expired, Store.lookup, h4]

theorem exchange_single_use_witness :
    (exchange_authorization_code 0 "at2" "rt2" singleUseAC
        (exchange_authorization_code 0 "at1" "rt1" singleUseAC singleUseState).2).1
      = .error "Invalid authorization code" ∧
    (load_authorization_code 0 "code1"
        (exchange_authorization_code 0 "at1" "rt1" singleUseAC singleUseState).2).1 = none ∧
    (exchange_refresh_token 0 "at2" "rt2" singleUseRTParam []
        (exchange_refresh_token 0 "at1" "rt1" singleUseRTParam [] singleUseState).2).1
      = .error "Invalid refresh token" ∧
    (load_refresh_token 0 "rtOld"
        (exchange_refresh_token 0 "at1" "rt1" singleUseRTParam [] singleUseState).2).1 = none :=
  exchange_single_use 0 0 "at1" "rt1" "at2" "rt2" [] [] singleUseAC
    singleUseRTParam singleUseState singleUseState rfl rfl (by decide)

/-- C3: `exchange_refresh_token` mints both new tokens with
`scopes if scopes else refresh_token.scopes` — the caller's requested scopes
whenever the list is non-empty (with no subset check against the original
grant, since `req` below is arbitrary), and the original refresh token's
scopes otherwise.  The returned objects and both stored records carry the
same selected scopes. -/
theorem refresh_scope_selection (now : Int) (at1 rt1 : String)
    (rt : RefreshToken) (req : List String) (st : AuthState)
    (stored : StoredToken)
    (h : st.refresh_tokens.lookup rt.token = some stored) :
    (exchange_refresh_token now at1 rt1 rt req st).1
      = .ok ({ token := at1, client_id := rt.client_id,
               scopes := if req = [] then rt.scopes else req,
               expires_at := now + ACCESS_TOKEN_LIFETIME,
               claims := [("user", stored.user), ("sub", stored.user)] },
             { token := rt1, client_id := rt.client_id,
               scopes := if req = [] then rt.scopes else req,
               expires_at := now + REFRESH_TOKEN_LIFETIME }) ∧
    ((exchange_refresh_token now at1 rt1 rt req st).2.tokens.lookup at1).map
        StoredToken.scopes = some (if req = [] then rt.scopes else req) ∧
    ((exchange_refresh_token now at1 rt1 rt req st).2.refresh_tokens.lookup rt1).map
        StoredToken.scopes = some (if req = [] then rt.scopes else req) := by
  refine ⟨?_, ?_, ?_⟩ <;>
    simp [exchange_refresh_token, h, Store.lookup_set_self]

theorem refresh_scope_selection_witness :
    ((exchange_refresh_token 0 "at1" "rt1" singleUseRTParam ["write"]
        singleUseState).1
      = .ok ({ token := "at1", client_id := "c1",
               scopes := if ["write"] = ([] : List String) then
                 singleUseRTParam.scopes else ["write"],
               expires_at := 0 + ACCESS_TOKEN_LIFETIME,
               claims := [("user", "admin"), ("sub", "admin")] },
             { token := "rt1", client_id := "c1",
               scopes := if ["write"] = ([] : List String) then
                 singleUseRTParam.scopes else ["write"],
               expires_at := 0 + REFRESH_TOKEN_LIFETIME }) ∧
    ((exchange_refresh_token 0 "at1" "rt1" singleUseRTParam ["write"]
        singleUseState).2.tokens.lookup "at1").map StoredToken.scopes
      = some (if ["write"] = ([] : List String) then singleUseRTParam.scopes
          else ["write"]) ∧
    ((exchange_refresh_token 0 "at1" "rt1" singleUseRTParam ["write"]
        singleUseState).2.refresh_tokens.lookup "rt1").map StoredToken.scopes
      = some (if ["write"] = ([] : List String) then singleUseRTParam.scopes
          else ["write"])) :=
  refresh_scope_selection 0 "at1" "rt1" singleUseRTParam ["write"]
    singleUseState singleUseRT rfl

/-- C2 (amended): expired records are unreachable through the lookup paths —
`load_access_token`, `load_refresh_token` and `load_authorization_code` each
sweep first and return `none` for a key all of whose records have
`expires_at ≤ now`, and the sweep removes every such record from all four
collections.  (The claim's further assertion that consumption paths are also
closed to expired records is false: see the counterexample — `_handle_login`
and the two exchange operations pop records without any expiry check.) -/
theorem expired_records_unreachable_via_lookups (now : Int) (k : String)
    (st : AuthState)
    (htok : ∀ v, (k, v) ∈ st.tokens → v.expires_at ≤ now)
    (hac : ∀ v, (k, v) ∈ st.auth_codes → v.expires_at ≤ now)
    (hrt : ∀ v, (k, v) ∈ st.refresh_tokens → v.expires_at ≤ now)
    (hpa : ∀ v, (k, v) ∈ st.pending_auths → v.expires_at ≤ now) :
    (load_access_token now k st).1 = none ∧
    (load_refresh_token now k st).1 = none ∧
    (load_authorization_code now k st).1 = none ∧
    (cleanup_expired now st).tokens.lookup k = none ∧
    (cleanup_expired now st).auth_codes.lookup k = none ∧
    (cleanup_expired now st).refresh_tokens.lookup k = none ∧
    (cleanup_expired now st).pending_auths.lookup k = none := by
  have h1 : (st.tokens.filter (fun p => decide (now < p.2.expires_at))).lookup k
      = none :=
    Store.lookup_filter_none_of _ _ _
      (fun v hv => decide_eq_false (not_lt.mpr (htok v hv)))
  have h2 : (st.auth_codes.filter (fun p => decide (now < p.2.expires_at))).lookup k
      = none :=
    Store.lookup_filter_none_of _ _ _
      (fun v hv => decide_eq_false (not_lt.mpr (hac v hv)))
  have h3 : (st.refresh_tokens.filter
      (fun p => decide (now < p.2.expires_at))).lookup k = none :=
    Store.lookup_filter_none_of _ _ _
      (fun v hv => decide_eq_false (not_lt.mpr (hrt v hv)))
  have h4 : (st.pending_auths.filter
      (fun p => decide (now < p.2.expires_at))).lookup k = none :=
    Store.lookup_filter_none_of _ _ _
      (fun v hv => decide_eq_false (not_lt.mpr (hpa v hv)))
  refine ⟨?_, ?_, ?_, ?_, ?_, ?_, ?_⟩ <;>
    simp [load_access_token, load_refresh_token, load_authorization_code,
      cleanup_expired, Store.lookup, h1, h2, h3, h4]

theorem expired_records_unreachable_witness :
    (load_access_token 100 "x" expiredState).1 = none ∧
    (load_refresh_token 100 "x" expiredState).1 = none ∧
    (load_authorization_code 100 "x" expiredState).1 = none ∧
    (cleanup_expired 100 expiredState).tokens.lookup "x" = none ∧
    (cleanup_expired 100 expiredState).auth_codes.lookup "x" = none ∧
    (cleanup_expired 100 expiredState).refresh_tokens.lookup "x" = none ∧
    (cleanup_expired 100 expiredState).pending_auths.lookup "x" = none :=
  expired_records_unreachable_via_lookups 100 "x" expiredState
    (fun v hv => by
      simp [expiredState] at hv
      simp [hv, expiredTok])
    (fun v hv => by
      simp [expiredState] at hv
      simp [hv, expiredCode])
    (fun v hv => by
      simp [expiredState] at hv
      simp [hv, expiredTok])
    (fun v hv => by
      simp [expiredState] at hv
      simp [hv, expiredPendingRec])

/-- C2 counterexample: at time 100 the pending authorization under "p1" is
already expired (`expires_at = 50`), yet a login submission with verified
credentials and that pending id succeeds — `_handle_login` pops the record
with no expiry check, returning a success redirect and storing a fresh
authorization code — where the claim requires it not to succeed. -/
theorem expired_pending_login_succeeds :
    (handle_login_post true "admin" (some "p1") "code1" 100
        expiredLoginState).1
      = .redirect "http://cb" [("code", "code1")] ∧
    (handle_login_post true "admin" (some "p1") "code1" 100
        expiredLoginState).2.auth_codes.lookup "code1"
      = some { code := "code1", client_id := "c1",
               redirect_uri := "http://cb", scopes := ["read"],
               code_challenge := none, expires_at := 700, user := "admin" } :=
  ⟨rfl, rfl⟩

theorem decide_lt_add_of_pos (now c : Int) (h : 0 < c) :
    decide (now < now + c) = true :=
  decide_eq_true (by omega)

/-- C5: round trip.  `authorize` (storing a pending auth under `pid`) →
successful login with that pending id → `load_authorization_code` on the
returned code → `exchange_authorization_code` → `load_access_token` yields a
present access token whose `user` claim is the username authenticated at
login.  All steps run at time `now`; `pid`, `code1`, `at1`, `rt1` are the
freshly generated identifiers (`_generate_token` output is prefixed and hence
non-empty, giving `pid ≠ ""`). -/
theorem auth_round_trip (now : Int) (pid base at1 rt1 code1 : String)
    (client_id : Option String) (params : AuthorizationParams)
    (username : String) (st : AuthState) (hpid : pid ≠ "") :
    (load_authorization_code now code1
        (handle_login_post true username (some pid) code1 now
          (authorize now pid base client_id params st).2).2).1
      = some (mintedAuthCode now code1 client_id params) ∧
    ((load_access_token now at1
        (exchange_authorization_code now at1 rt1
          (mintedAuthCode now code1 client_id params)
          (load_authorization_code now code1
            (handle_login_post true username (some pid) code1 now
              (authorize now pid base client_id params st).2).2).2).2).1).bind
      (fun tk => tk.claims.lookup "user") = some username := by
  have hB : (handle_login_post true username (some pid) code1 now
      (authorize now pid base client_id params st).2).2
      = { tokens := st.tokens,
          auth_codes := st.auth_codes.set code1
            { code := code1, client_id := client_id.getD "",
              redirect_uri := params.redirect_uri,
              scopes := params.scopes.getD [],
              code_challenge := params.code_challenge,
              expires_at := now + AUTH_CODE_LIFETIME, user := username },
          refresh_tokens := st.refresh_tokens,
          pending_auths := (st.pending_auths.set pid
            { client_id := client_id.getD "",
              redirect_uri := params.redirect_uri,
              scopes := params.scopes.getD [],
              state := params.state,
              code_challenge := params.code_challenge,
              expires_at := now + PENDING_AUTH_LIFETIME }).erase pid } := by
    simp [authorize, handle_login_post, hpid, Store.lookup_set_self]
  have hf : ((st.auth_codes.set code1
      { code := code1, client_id := client_id.getD "",
        redirect_uri := params.redirect_uri,
        scopes := params.scopes.getD [],
        code_challenge := params.code_challenge,
        expires_at := now + AUTH_CODE_LIFETIME, user := username }).filter
          (fun p => decide (now < p.2.expires_at))).lookup code1
      = some { code := code1, client_id := client_id.getD "",
               redirect_uri := params.redirect_uri,
               scopes := params.scopes.getD [],
               code_challenge := params.code_challenge,
               expires_at := now + AUTH_CODE_LIFETIME, user := username } :=
    Store.lookup_filter_set_self _ _ _ _
      (decide_lt_add_of_pos now AUTH_CODE_LIFETIME (by decide))
  rw [hB]
  constructor
  · simp [load_authorization_code, cleanup_expired, Store.lookup, hf,
      mintedAuthCode]
  · have hC : (load_authorization_code now code1
        { tokens := st.tokens,
          auth_codes := st.auth_codes.set code1
            { code := code1, client_id := client_id.getD "",
              redirect_uri := params.redirect_uri,
              scopes := params.scopes.getD [],
              code_challenge := params.code_challenge,
              expires_at := now + AUTH_CODE_LIFETIME, user := username },
          refresh_tokens := st.refresh_tokens,
          pending_auths := (st.pending_auths.set pid
            { client_id := client_id.getD "",
              redirect_uri := params.redirect_uri,
              scopes := params.scopes.getD [],
              state := params.state,
              code_challenge := params.code_challenge,
              expires_at := now + PENDING_AUTH_LIFETIME }).erase pid }).2
        = { tokens := st.tokens.filter (fun p => decide (now < p.2.expires_at)),
            auth_codes := (st.auth_codes.set code1
              { code := code1, client_id := client_id.getD "",
                redirect_uri := params.redirect_uri,
                scopes := params.scopes.getD [],
                code_challenge := params.code_challenge,
                expires_at := now + AUTH_CODE_LIFETIME,
                user := username }).filter
                  (fun p => decide (now < p.2.expires_at)),
            refresh_tokens := st.refresh_tokens.filter
              (fun p => decide (now < p.2.expires_at)),
            pending_auths := ((st.pending_auths.set pid
              { client_id := client_id.getD "",
                redirect_uri := params.redirect_uri,
                scopes := params.scopes.getD [],
                state := params.state,
                code_challenge := params.code_challenge,
                expires_at := now + PENDING_AUTH_LIFETIME }).erase pid).filter
                  (fun p => decide (now < p.2.expires_at)) } := by
      simp [load_authorization_code, cleanup_expired, Store.lookup, hf]
    rw [hC]
    have hD : (exchange_authorization_code now at1 rt1
        (mintedAuthCode now code1 client_id params)
        { tokens := st.tokens.filter (fun p => decide (now < p.2.expires_at)),
          auth_codes := (st.auth_codes.set code1
            { code := code1, client_id := client_id.getD "",
              redirect_uri := params.redirect_uri,
              scopes := params.scopes.getD [],
              code_challenge := params.code_challenge,
              expires_at := now + AUTH_CODE_LIFETIME,
              user := username }).filter
                (fun p => decide (now < p.2.expires_at)),
          refresh_tokens := st.refresh_tokens.filter
            (fun p => decide (now < p.2.expires_at)),
          pending_auths := ((st.pending_auths.set pid
            { client_id := client_id.getD "",
              redirect_uri := params.redirect_uri,
              scopes := params.scopes.getD [],
              state := params.state,
              code_challenge := params.code_challenge,
              expires_at := now + PENDING_AUTH_LIFETIME }).erase pid).filter
                (fun p => decide (now < p.2.expires_at)) }).2.tokens
        = Store.set (st.tokens.filter (fun p => decide (now < p.2.expires_at))) at1
            { token := at1, user := username,
              scopes := params.scopes.getD [],
              expires_at := now + ACCESS_TOKEN_LIFETIME,
              client_id := client_id.getD "" } := by
      simp [exchange_authorization_code, mintedAuthCode, Store.lookup, hf]
    have hg : ((Store.set (st.tokens.filter
        (fun p => decide (now < p.2.expires_at))) at1
        { token := at1, user := username,
          scopes := params.scopes.getD [],
          expires_at := now + ACCESS_TOKEN_LIFETIME,
          client_id := client_id.getD "" }).filter
          (fun p => decide (now < p.2.expires_at))).lookup at1
        = some { token := at1, user := username,
                 scopes := params.scopes.getD [],
                 expires_at := now + ACCESS_TOKEN_LIFETIME,
                 client_id := client_id.getD "" } :=
      Store.lookup_filter_set_self _ _ _ _
        (decide_lt_add_of_pos now ACCESS_TOKEN_LIFETIME (by decide))
    simp [load_access_token, cleanup_expired, Store.lookup, hD, hg]

theorem auth_round_trip_witness :
    (load_authorization_code 0 "code1"
        (handle_login_post true "admin" (some "p1") "code1" 0
          (authorize 0 "p1" "http://b" (some "c1") roundTripParams
            emptyAuthState).2).2).1
      = some (mintedAuthCode 0 "code1" (some "c1") roundTripParams) ∧
    ((load_access_token 0 "at1"
        (exchange_authorization_code 0 "at1" "rt1"
          (mintedAuthCode 0 "code1" (some "c1") roundTripParams)
          (load_authorization_code 0 "code1"
            (handle_login_post true "admin" (some "p1") "code1" 0
              (authorize 0 "p1" "http://b" (some "c1") roundTripParams
                emptyAuthState).2).2).2).2).1).bind
      (fun tk => tk.claims.lookup "user") = some "admin" :=
  auth_round_trip 0 "p1" "http://b" "at1" "rt1" "code1" (some "c1")
    roundTripParams "admin" emptyAuthState (by decide)

namespace TokenDB

theorem decodeStrs_encode (l : List String) :
    decodeStrs (l.map Json.str) = some l := by
  induction l with
  | nil => rfl
  | cons s t ih => simp [decodeStrs, asStr, ih]

theorem asStrs_encode (l : List String) : asStrs (encodeStrs l) = some l := by
  simp [asStrs, encodeStrs, decodeStrs_encode]

theorem asOptStr_encode (o : Option String) :
    asOptStr (encodeOptStr o) = some o := by
  cases o <;> rfl

theorem decodeToken_encode (t : StoredToken) :
    decodeToken (encodeToken t) = some t := by
  simp [decodeToken, encodeToken, tokenKeys, List.lookup, asStr, asInt,
    asStrs_encode]

end TokenDB

namespace TokenDB

theorem decodeAuthCode_encode (c : StoredAuthCode) :
    decodeAuthCode (encodeAuthCode c) = some c := by
  simp [decodeAuthCode, encodeAuthCode, authCodeKeys, List.lookup, asStr,
    asInt, asBool, asStrs_encode, asOptStr_encode]

theorem decodePending_encode (p : PendingAuth) :
    decodePending (encodePending p) = some p := by
  simp [decodePending, encodePending, pendingKeys, List.lookup, asStr,
    asInt, asBool, asStrs_encode, asOptStr_encode]

theorem decodeClient_encode (c : Client) :
    decodeClient (encodeClient c) = some c := by
  simp [decodeClient, encodeClient, List.lookup, asStr, asStrs_encode,
    asOptStr_encode]

theorem decodeMap_encode {α : Type} (dec : Json → Option α) (enc : α → Json)
    (h : ∀ v, dec (enc v) = some v) (s : Store α) :
    decodeMap dec (s.map (fun p => (p.1, enc p.2))) = some s := by
  induction s with
  | nil => rfl
  | cons p t ih => simp [decodeMap, h, ih]

end TokenDB

/-- C6: persistence round trip — for every store state (any number of
records of each of the five kinds), loading the JSON document written by
`_save` reconstructs every collection field-for-field, optional/nullable
fields (`state`, `code_challenge`, `client_secret`, `client_name`) included. -/
theorem persistence_round_trip (db : TokenDB.DB) :
    TokenDB.load (.parsed (TokenDB.save db)) = .ok db := by
  simp [TokenDB.load, TokenDB.save, TokenDB.loadCollection, TokenDB.loadClients,
    TokenDB.encodeMap, List.lookup,
    TokenDB.decodeMap_encode _ _ TokenDB.decodeToken_encode,
    TokenDB.decodeMap_encode _ _ TokenDB.decodeAuthCode_encode,
    TokenDB.decodeMap_encode _ _ TokenDB.decodePending_encode,
    TokenDB.decodeMap_encode _ _ TokenDB.decodeClient_encode]

/-- C9: evaluation of `TokenDB._load` at the two failing inputs.  A backing
file holding the valid JSON text `[]` (an array, not an object) raises an
uncaught `AttributeError` from `data.get(...)` instead of starting empty;
and a caught `TypeError` halfway through loading retains the collections
decoded before it (here `tokens`), so the store does not start with all five
collections empty. -/
theorem tokendb_load_corruption_behavior :
    TokenDB.load (.parsed (.arr [])) = .error () ∧
    TokenDB.load (.parsed corruptDoc)
      = .ok ⟨[("t", corruptTok)], [], [], [], []⟩ := ⟨rfl, rfl⟩

theorem login_redirect_omits_falsy_state_witness :
    (handle_login_post true "admin" (some "p1") "code1" 0 falsyStateStore).1
      = .redirect falsyStatePending.redirect_uri [("code", "code1")] :=
  login_redirect_omits_falsy_state "admin" "p1" "code1" 0 falsyStateStore
    falsyStatePending (by decide) rfl (Or.inr rfl)
